import Mathlib

/-!
Verification of the BigInteger draft in `src/cljs/math/biginteger.js`.

The JavaScript source is embedded shallowly: JS numbers that hold 32-bit limb
values are modelled as `Int` (JS stores limbs as signed 32-bit results of `&`,
`<<` and friends, and reinterprets them as unsigned via `unsignedLonger`);
JS exceptions are modelled with `Except JsError`.  Reading or assigning an
identifier that is not declared anywhere in the module (all class code is
strict-mode JavaScript) throws a `ReferenceError`; the draft does this in
several places (`ZERO`, `signum`, `val`, `mag`) and the embedding models each
such site as `JsError.referenceError`, with a comment naming the source line.

The division engine is present in the source but broken twice over: the
dispatch (lines 723-730) invokes the public names
`this.divideAndRemainderKnuth` / `this.divideAndRemainderBurnikelZiegler`,
neither of which exists (the class defines only the private
`#divideAndRemainderKnuth`, itself a stub that reads the unbound `ZERO`),
so every `divideAndRemainder` call throws a TypeError at the call site.
-/

/-- The failure kinds of the embedded JavaScript code.
`formatError` is `NumberFormatException`, `arithmeticError` is
`ArithmeticException` (overflow), `rangeError` is the JS `RangeError`,
`referenceError` models reading or assigning an undeclared identifier in
strict mode, `typeError` models calling a non-function / constructing without
`new`, and `divideByZero` is the spec's DivideByZeroError. -/
inductive JsError where
  | rangeError
  | formatError
  | arithmeticError
  | referenceError
  | typeError
  | divideByZero
deriving DecidableEq

/-- The sign/magnitude value type: `#signum` and `#mag` of class BigInteger
(lines 399-400).  The magnitude is big-endian; each limb is a JS number that
the source keeps in signed 32-bit form. -/
structure BigIntegerV where
  signum : Int
  mag : List Int
deriving DecidableEq

-- Constants from lines 31-59 of the source (only the ones the claims touch).

def INT_MASK : Int := 0xFFFFFFFF

def MAX_MAG_LENGTH : Nat := 67108864

def MAX_INT : Int := 0x7FFFFFFF

def MIN_INT : Int := -0x80000000

def TWO_32 : Int := 4294967296

def MIN_RADIX : Int := 2

def MAX_RADIX : Int := 36

def MAX_CONSTANT : Int := 16

def BURNIKEL_ZIEGLER_THRESHOLD : Nat := 80

def BURNIKEL_ZIEGLER_OFFSET : Int := 40

/-- JS `ToInt32`: the value a JS bitwise operator (`&`, `|`, `<<`) produces. -/
def toInt32 (n : Int) : Int := (n + 2147483648) % TWO_32 - 2147483648

/-- JS `ToUint32`: the value `n >>> 0` produces (used for `>>>` shifts). -/
def toUInt32 (n : Int) : Int := n % TWO_32

/-- `unsignedLonger` (lines 158-162): reinterprets a signed 32-bit limb as its
unsigned value.  `(n & MAX_INT) + 0x80000000` equals `n + 2^32` for negative
int32 `n`; the `RangeError` guard for `n < MIN_INT` is unreachable on limbs
and is not modelled. -/
def unsignedLonger (n : Int) : Int := if 0 ≤ n then n else n + TWO_32

/-- `stripLeadingZeroInts` (lines 197-204): drop leading zero limbs (the
`trusted` flag only controls aliasing of the underlying JS array). -/
def stripLeadingZeroInts (value : List Int) : List Int :=
  value.dropWhile (fun l => l == 0)

/-- Inner loop of `compareMagnitudes` (lines 328-332): limbs are compared for
(in)equality on their raw signed form, and ordered by unsigned value. -/
def compareLimbs : List Int → List Int → Int
  | x :: xt, y :: yt =>
    if x ≠ y then (if unsignedLonger x < unsignedLonger y then -1 else 1)
    else compareLimbs xt yt
  | _, _ => 0

/-- `compareMagnitudes` (lines 325-335). -/
def compareMagnitudes (x y : List Int) : Int :=
  if x.length = y.length then compareLimbs x y
  else if x.length < y.length then -1 else 1

/-- Common-part loop of `addMagnitudes` (lines 262-265), over LSB-first limb
lists of equal length.  Returns the stored limbs (LSB-first) and the final raw
`sum` (the carry test at line 268 reads it unmasked). -/
def addCommonLoop : List Int → List Int → Int → List Int × Int
  | x :: xt, y :: yt, sumPrev =>
    let sum := unsignedLonger x + unsignedLonger y + Int.fdiv sumPrev TWO_32
    let rest := addCommonLoop xt yt sum
    (toInt32 sum :: rest.1, rest.2)
  | _, _, sumPrev => ([], sumPrev)

/-- Carry-propagation loop of `addMagnitudes` (lines 269-273) followed by the
plain copy of the remaining limbs (line 275), over the LSB-first remainder of
the longer operand.  The Bool is true when the carry survives past the top
limb (line 277 then grows the result). -/
def addCarryLoop : List Int → List Int × Bool
  | [] => ([], true)
  | x :: xt =>
    let sum := unsignedLonger x + 1
    if INT_MASK < sum then
      let rest := addCarryLoop xt
      (toInt32 sum :: rest.1, rest.2)
    else (toInt32 sum :: xt, false)

/-- `addMagnitudes` (lines 251-284).  Note two faithfully kept quirks of the
source: the single-limb special case (lines 257-259) stores the *unmasked*
sum into the result, and the grown result prepends the carry limb `1`. -/
def addMagnitudes (x0 y0 : List Int) : List Int :=
  let p := if x0.length < y0.length then (y0, x0) else (x0, y0)
  let xr := p.1.reverse
  let yr := p.2.reverse
  let lowFin : List Int × Int :=
    if p.2.length = 1 then
      match xr, yr with
      | xl :: _, yl :: _ =>
        ([unsignedLonger xl + unsignedLonger yl], unsignedLonger xl + unsignedLonger yl)
      | _, _ => ([], 0)
    else addCommonLoop (xr.take yr.length) yr 0
  let xrest := xr.drop yr.length
  let carry := INT_MASK < lowFin.2
  let hiGrow : List Int × Bool := if carry then addCarryLoop xrest else (xrest, false)
  ((lowFin.1 ++ hiGrow.1) ++ (if hiGrow.2 then [1] else [])).reverse

/-- Common-part loop of `subtractMagnitudes` (lines 302-305), over LSB-first
limb lists; returns stored limbs and the final raw `difference`. -/
def subCommonLoop : List Int → List Int → Int → List Int × Int
  | b :: bt, l :: lt, dPrev =>
    let d := unsignedLonger b - unsignedLonger l + Int.fdiv dPrev TWO_32
    let rest := subCommonLoop bt lt d
    (toInt32 d :: rest.1, rest.2)
  | _, _, dPrev => ([], dPrev)

/-- Borrow loop of `subtractMagnitudes` (lines 309-313) plus the plain copy of
the remaining limbs (line 315). -/
def subBorrowLoop : List Int → List Int
  | [] => []
  | b :: bt =>
    let d := toInt32 (unsignedLonger b - 1)
    if d = -1 then d :: subBorrowLoop bt else d :: bt

/-- `subtractMagnitudes` (lines 291-318).  The borrow test at line 308 is the
source's `difference > INT_MASK`, which is never true for a difference of
32-bit values, so borrows never propagate into the longer part - kept as
written. -/
def subtractMagnitudes (big little : List Int) : Except JsError (List Int) :=
  if big.length < little.length then .error .rangeError
  else
    let br := big.reverse
    let lr := little.reverse
    let lowFin : List Int × Int :=
      if little.length = 1 then
        match br, lr with
        | bl :: _, ll :: _ =>
          let d := unsignedLonger bl - unsignedLonger ll
          ([toInt32 d], d)
        | _, _ => ([], 0)
      else subCommonLoop (br.take lr.length) lr 0
    let borrow := INT_MASK < lowFin.2
    let brest := br.drop lr.length
    let hi := if borrow then subBorrowLoop brest else brest
    .ok (stripLeadingZeroInts (lowFin.1 ++ hi).reverse)

/-- The `BigInteger(signum, magnitude)` constructor (lines 429-461).
`checkFromIndexSize(0, len, magnitude)` at line 441 compares the length with
the array itself and never throws for a multi-limb array, so it is elided.
The limb-range check at lines 442-446 does `throw NumberFormatException(...)`
without `new`, which in JS raises a TypeError, hence `.typeError` there.
`checkRange` (lines 212-216) is inlined in the final branch. -/
def mkBigInteger (signum : Int) (magnitude : List Int) : Except JsError BigIntegerV :=
  if signum < -1 ∨ 1 < signum then .error .formatError
  else if magnitude.length ≤ 1 then
    if (magnitude.length = 0 ∧ signum ≠ 0) ∨ (magnitude.length = 1 ∧ signum = 0) then
      .error .formatError
    else .ok ⟨signum, magnitude⟩
  else if ∀ l ∈ magnitude, MIN_INT ≤ l ∧ l ≤ MAX_INT then
    if (stripLeadingZeroInts magnitude).length = 0 then
      .ok ⟨0, stripLeadingZeroInts magnitude⟩
    else if signum = 0 then .error .formatError
    else if MAX_MAG_LENGTH ≤ (stripLeadingZeroInts magnitude).length then
      if MAX_MAG_LENGTH < (stripLeadingZeroInts magnitude).length ∨
          ((stripLeadingZeroInts magnitude).length = MAX_MAG_LENGTH ∧
            (stripLeadingZeroInts magnitude).head?.getD 0 < 0) then
        .error .arithmeticError
      else .ok ⟨signum, stripLeadingZeroInts magnitude⟩
    else .ok ⟨signum, stripLeadingZeroInts magnitude⟩
  else .error .typeError

/-- `negate` (lines 672-675). -/
def negate (b : BigIntegerV) : Except JsError BigIntegerV :=
  if b.signum = 0 then .ok b else mkBigInteger (-b.signum) b.mag

/-- `#addBigInteger` (lines 579-590), the path the public `add` takes for a
BigInteger argument.  The `cmp === 0` branch executes `return ZERO;` where
`ZERO` is not declared anywhere in the module (the constant is `_ZERO`, the
getter `BigInteger.ZERO`), so that branch throws a ReferenceError. -/
def addBigInteger (a val : BigIntegerV) : Except JsError BigIntegerV :=
  if val.signum = 0 then .ok a
  else if a.signum = 0 then .ok val
  else if a.signum = val.signum then
    mkBigInteger a.signum (addMagnitudes a.mag val.mag)
  else
    let cmp := compareMagnitudes a.mag val.mag
    if cmp = 0 then .error .referenceError
    else
      (if 0 < cmp then subtractMagnitudes a.mag val.mag
       else subtractMagnitudes val.mag a.mag).bind fun resultMag =>
        mkBigInteger (cmp * a.signum) resultMag

/-- `#subtractBigInteger` (lines 615-626), the path the public `subtract`
takes for a BigInteger argument.  Its `cmp === 0` branch has the same
unbound-`ZERO` ReferenceError as `#addBigInteger` (line 622). -/
def subtractBigInteger (a val : BigIntegerV) : Except JsError BigIntegerV :=
  if val.signum = 0 then .ok a
  else if a.signum = 0 then negate val
  else if a.signum ≠ val.signum then
    mkBigInteger a.signum (addMagnitudes a.mag val.mag)
  else
    let cmp := compareMagnitudes a.mag val.mag
    if cmp = 0 then .error .referenceError
    else
      (if 0 < cmp then subtractMagnitudes a.mag val.mag
       else subtractMagnitudes val.mag a.mag).bind fun resultMag =>
        mkBigInteger (if cmp = a.signum then 1 else -1) resultMag

/-- The small-value cache entries the static initializer builds
(lines 409-412): `posConst[i] = new BigInteger(1, [i])`. -/
def posConst (i : Nat) : BigIntegerV := ⟨1, [(i : Int)]⟩

/-- The small-value cache entries the static initializer builds
(lines 409-412): `negConst[i] = new BigInteger(-1, [i])`. -/
def negConst (i : Nat) : BigIntegerV := ⟨-1, [(i : Int)]⟩

/-- `valueOf` (lines 559-572).  Every branch of the source reads an
undeclared identifier: `return ZERO;` (line 560, the module constant is
`_ZERO`), and `posConst[val]` / `negConst[-val]` (lines 562, 564) use `val`
although the parameter is named `n`; each read is a ReferenceError.  The
code at lines 566-571 that would build `new BigInteger(signum, [n])` is
unreachable. -/
def valueOf (n : Int) : Except JsError BigIntegerV :=
  if n = 0 then .error .referenceError
  else if 0 < n ∧ n ≤ MAX_CONSTANT then .error .referenceError
  else .error .referenceError

/-- The length of `n.toString(2)` for a JS integer `n`: a minus sign for
negative values, then the binary digits of the magnitude.  `Nat.toDigits`
is the digit-string construction. -/
def jsBinaryStringLength (n : Int) : Nat :=
  if n < 0 then 1 + (Nat.toDigits 2 (-n).toNat).length
  else (Nat.toDigits 2 n.toNat).length

/-- `bitLengthForInt` (lines 353-355): literally
`32 - (n | 0).toString(2).length`, i.e. 32 minus the binary digit count -
the number of leading zeros, not the bit length its doc comment promises. -/
def bitLengthForInt (n : Int) : Int :=
  32 - (jsBinaryStringLength (toInt32 n) : Int)

/-- `bitLength` (lines 692-713).  The memo field starts unset, so the body
runs on first call.  For an empty magnitude it returns 0; otherwise it
computes `magBitLength` and then executes `if (signum < 0)` (line 701),
which reads the undeclared identifier `signum` (the field is
`this.#bitLengthPlusOne`-cached `this.#signum`), a ReferenceError. -/
def bitLength (b : BigIntegerV) : Except JsError Int :=
  if b.mag.length = 0 then .ok 0
  else
    let _magBitLength : Int :=
      ((b.mag.length : Int) - 1) * 32 + bitLengthForInt (b.mag.head?.getD 0)
    .error .referenceError

/-- The `toString(radix)` method (lines 732-738).  Line 733,
`if (signum === 0) return "0";`, reads the undeclared identifier `signum`
(the field is `this.#signum`, used correctly at line 737), so every call
fails before the radix clamp at line 734 can run; the rest of the body is
dead code. -/
def toStringRadix (b : BigIntegerV) (radix : Int) : Except JsError String :=
  (Except.error JsError.referenceError : Except JsError Int).bind fun signum =>
    if signum = 0 then .ok "0"
    else
      let _r := if radix < MIN_RADIX ∨ MAX_RADIX < radix then (10 : Int) else radix
      let _b := b
      .error .referenceError

-- Invariants and validity (spec section 3).

/-- Invariant I1: `sign == 0 ⇔ magnitude is empty`. -/
def I1 (b : BigIntegerV) : Prop := b.signum = 0 ↔ b.mag = []

/-- Invariant I2: the magnitude has no leading zero limb. -/
def I2 (b : BigIntegerV) : Prop := b.mag.head? ≠ some 0

/-- A well-formed instance: legal sign, I1, I2, limbs in signed 32-bit range,
and inside the range `checkRange` (lines 212-216) admits. -/
def Valid (b : BigIntegerV) : Prop :=
  (b.signum = -1 ∨ b.signum = 0 ∨ b.signum = 1) ∧ I1 b ∧ I2 b ∧
    (∀ l ∈ b.mag, MIN_INT ≤ l ∧ l ≤ MAX_INT) ∧
    (b.mag.length < MAX_MAG_LENGTH ∨
      (b.mag.length = MAX_MAG_LENGTH ∧ 0 ≤ b.mag.head?.getD 0))

instance (b : BigIntegerV) : Decidable (I1 b) := by unfold I1; infer_instance

instance (b : BigIntegerV) : Decidable (I2 b) := by unfold I2; infer_instance

instance (b : BigIntegerV) : Decidable (Valid b) := by unfold Valid; infer_instance

-- String parsing (`fromString`, lines 478-545) and its helpers.

/-- `bitsPerDigit` table (lines 67-72). -/
def bitsPerDigit : List Nat :=
  [0, 0,
   1024, 1624, 2048, 2378, 2648, 2875, 3072, 3247, 3402, 3543, 3672,
   3790, 3899, 4001, 4096, 4186, 4271, 4350, 4426, 4498, 4567, 4633,
   4696, 4756, 4814, 4870, 4923, 4975, 5025, 5074, 5120, 5166, 5210,
   5253, 5295]

/-- `digitsPerInt` table (lines 74-77). -/
def digitsPerInt : List Nat :=
  [0, 0, 30, 19, 15, 13, 11,
   11, 10, 9, 9, 8, 8, 8, 8, 7, 7, 7, 7, 7, 7, 7, 6, 6, 6, 6,
   6, 6, 6, 6, 6, 6, 6, 6, 6, 6, 5]

/-- `intRadix` table (lines 79-87): `radix^digitsPerInt[radix]` per radix. -/
def intRadix : List Int :=
  [0, 0,
   0x40000000, 0x4546b3db, 0x40000000, 0x48c27395, 0x159fd800,
   0x75db9c97, 0x40000000, 0x17179149, 0x3b9aca00, 0xcc6db61,
   0x19a10000, 0x309f1021, 0x57f6c100, 0xa2f1b6f,  0x10000000,
   0x18754571, 0x247dbc80, 0x3547667b, 0x4c4b4000, 0x6b5a6e1d,
   0x6c20a40,  0x8d2d931,  0xb640000,  0xe8d4a51,  0x1269ae40,
   0x17179149, 0x1cb91000, 0x23744899, 0x2b73a840, 0x34e63b41,
   0x40000000, 0x4cfa3cc1, 0x5c13d840, 0x6d91b519, 0x39aa400]

/-- The numeric value of one character as a digit, per `Number.parseInt`:
`0`-`9`, then `a`-`z` / `A`-`Z` for 10..35. -/
def digitVal (c : Char) : Option Nat :=
  if '0' ≤ c ∧ c ≤ '9' then some (c.toNat - 48)
  else if 'a' ≤ c ∧ c ≤ 'z' then some (c.toNat - 87)
  else if 'A' ≤ c ∧ c ≤ 'Z' then some (c.toNat - 55)
  else none

/-- A digit legal for the given radix, else `none`. -/
def jsDigit (c : Char) (radix : Int) : Option Nat :=
  match digitVal c with
  | some v => if (v : Int) < radix then some v else none
  | none => none

/-- `Number.parseInt(s, radix)`: optional sign, then the longest prefix of
legal digits (NaN - `none` - when that prefix is empty).  Leading whitespace
and the hex `0x` prefix never occur at its call sites here and are not
modelled; group values fit well under 2^53 so no double rounding occurs. -/
def jsParseInt (s : List Char) (radix : Int) : Option Int :=
  let sr : Int × List Char :=
    match s with
    | '-' :: t => (-1, t)
    | '+' :: t => (1, t)
    | t => (1, t)
  let ds := sr.2.takeWhile (fun c => (jsDigit c radix).isSome)
  if ds.isEmpty then none
  else some (sr.1 * ds.foldl (fun acc c => acc * radix + ((jsDigit c radix).getD 0 : Int)) 0)

/-- JS `String.prototype.lastIndexOf` for a single character: the last index
holding `c`, or `-1`. -/
def lastIndexOf (c : Char) (l : List Char) : Int :=
  match l.reverse.findIdx? (fun x => x == c) with
  | some i => (l.length : Int) - 1 - (i : Int)
  | none => -1

/-- The leading-zero skip loop of `fromString` (lines 504-506): the number of
consecutive characters from the front for which
`Number.parseInt(value.charAt(cursor), radix) === 0`. -/
def skipZerosCount : List Char → Int → Nat
  | c :: rest, radix =>
    if jsParseInt [c] radix = some 0 then 1 + skipZerosCount rest radix else 0
  | [], _ => 0

/-- `multiplyCarryInt` (lines 135-152): 16-bit decomposition of a 32x32
multiply with carry-in.  `0xFFFF & a` and `a >>> 16` act on the uint32 view
of the limb; `p0 >>> 16` wraps `p0` through ToUint32 exactly as JS does
(`p0` can exceed 2^32 when the carry is large); the low word is
`p1 << 16 | p0`, an int32. -/
def multiplyCarryInt (a b carry : Int) : Int × Int :=
  let al := toUInt32 a % 65536
  let ah := toUInt32 a / 65536
  let bl := toUInt32 b % 65536
  let bh := toUInt32 b / 65536
  let blal := bl * al
  let blah := bl * ah
  let bhal := bh * al
  let bhah := bh * ah
  let p0 := blal + carry
  let p1 := blah + bhal + toUInt32 p0 / 65536
  let p0m := toUInt32 p0 % 65536
  let p32 := bhah + toUInt32 p1 / 65536
  (p32, toInt32 ((toUInt32 p1 % 65536) * 65536 + p0m))

/-- Multiply loop of `destructiveMulAdd` (lines 175-177) over LSB-first limbs;
returns the final carry (which the source then discards) and the new limbs. -/
def mulLoop : List Int → Int → Int → Int × List Int
  | [], _, carry => (carry, [])
  | l :: t, y, carry =>
    let p := multiplyCarryInt y l carry
    let r := mulLoop t y p.1
    (r.1, p.2 :: r.2)

/-- Addition loop of `destructiveMulAdd` (lines 180-187) over LSB-first limbs;
the first step receives `unsignedLonger z` as the incoming value and the
final carry is discarded, as in the source. -/
def addLoop : List Int → Int → List Int
  | [], _ => []
  | l :: t, carry =>
    let sum := unsignedLonger l + carry
    toInt32 sum :: addLoop t (Int.fdiv sum TWO_32)

/-- `destructiveMulAdd` (lines 170-188): multiply the limb list by `y` in
place, then add `z` into the least-significant limb with carry propagation. -/
def destructiveMulAdd (x : List Int) (y z : Int) : List Int :=
  let m := mulLoop x.reverse y 0
  (addLoop m.2 (unsignedLonger z)).reverse

/-- The digit-group loop of `fromString` (lines 534-539), as fuel-based
recursion (the fuel is the remaining string length; `digitsPerInt[radix] ≥ 5`
for every radix in [2,36], so the fuel-exhausted branch is unreachable - it
stands in for the divergence a zero group width would cause in JS).
A group whose `parseInt` is NaN is not negative, so the `Illegal digit` throw
does not fire for it (NaN is fed onward, modelled as `MIN_INT`, whose
`unsignedLonger` value 2^31 equals `unsignedLonger(NaN)`; the caller throws
on every path afterwards, so the numeric contents are unobservable). -/
def groupsLoop : Nat → List Char → Int → Int → List Int → Except JsError (List Int)
  | _, [], _, _, magnitude => .ok magnitude
  | 0, _ :: _, _, _, _ => .error .referenceError
  | fuel + 1, c :: rest, radix, superRadix, magnitude =>
    let dpi := digitsPerInt.getD radix.toNat 0
    let group := (c :: rest).take dpi
    let gv := jsParseInt group radix
    if (match gv with | some g => decide (g < 0) | none => false) then .error .formatError
    else
      let z : Int := match gv with | some g => g | none => MIN_INT
      groupsLoop fuel ((c :: rest).drop dpi) radix superRadix
        (destructiveMulAdd magnitude superRadix z)

/-- `fromString` (lines 478-545).  Faithful control flow: radix range check,
zero-length check, the at-most-one-leading-sign checks, the leading-zero
skip; the all-zero return at line 509 (`new BigInteger(0, ZERO.mag)`) reads
the unbound identifier `ZERO` and is a ReferenceError; the overflow guard at
lines 518-520; the group parse.  Every path that completes the digit loop
reaches line 541, `mag = stripLeadingZeroInts(magnitude, true)`, an
assignment to an undeclared identifier - a ReferenceError in strict-mode
class code - and the function has no return statement after it.  JS array
holes in the freshly allocated magnitude are modelled as 0 (ToInt32 of
`undefined`); they are unobservable for the same reason. -/
def fromString (value : String) (radix : Int) : Except JsError BigIntegerV := do
  let v := value.data
  let len := v.length
  if radix < MIN_RADIX ∨ MAX_RADIX < radix then throw JsError.rangeError
  if len = 0 then throw JsError.formatError
  let index1 := lastIndexOf '-' v
  let index2 := lastIndexOf '+' v
  let sc : Except JsError (Int × Nat) :=
    if 0 ≤ index1 then
      if index1 ≠ 0 ∨ 0 ≤ index2 then .error .formatError else .ok (-1, 1)
    else if 0 ≤ index2 then
      if index2 ≠ 0 then .error .formatError else .ok (1, 1)
    else .ok (1, 0)
  let sign ← sc
  if sign.2 = len then throw JsError.formatError
  let cursor1 := sign.2 + skipZerosCount (v.drop sign.2) radix
  if cursor1 = len then throw JsError.referenceError
  let numDigits := len - cursor1
  let numBits := ((numDigits * bitsPerDigit.getD radix.toNat 0) % 4294967296) / 1024 + 1
  if 4294967296 ≤ numBits + 31 then throw JsError.arithmeticError
  let numWords := (numBits + 31) / 32
  let dpi := digitsPerInt.getD radix.toNat 0
  let fgl0 := numDigits % dpi
  let firstGroupLen := if fgl0 = 0 then dpi else fgl0
  let group0 := (v.drop cursor1).take firstGroupLen
  let cursor2 := cursor1 + firstGroupLen
  let g0 := jsParseInt group0 radix
  if (match g0 with | some g => decide (g < 0) | none => false) then
    throw JsError.formatError
  let firstLimb : Int := g0.getD 0
  let magnitude : List Int := List.replicate (numWords - 1) 0 ++ [firstLimb]
  let superRadix : Int := intRadix.getD radix.toNat 0
  let _magFinal ← groupsLoop len (v.drop cursor2) radix superRadix magnitude
  throw JsError.referenceError

-- The division engine (lines 719-730), embedded as written.

/-- `#divideAndRemainderKnuth` (lines 719-721): a stub whose whole body is
`var result = [ZERO, ZERO];` - a read of the unbound identifier `ZERO`, so a
call would throw a ReferenceError (and the method has no return statement).
It is a private method; the dispatch below calls a nonexistent public name
instead, so this stub is in fact never reached. -/
def divideAndRemainderKnuth (_a _val : BigIntegerV) :
    Except JsError (BigIntegerV × BigIntegerV) :=
  .error .referenceError

/-- `divideAndRemainder` (lines 723-730): the threshold dispatch from the
source (the length difference is JS subtraction, which can be negative).
Each branch then invokes `this.divideAndRemainderKnuth(val)` resp.
`this.divideAndRemainderBurnikelZiegler(val)`, but the class defines no
public method of either name (only the private `#divideAndRemainderKnuth`
stub exists, and no Burnikel-Ziegler method at all), so the property access
yields `undefined` and the invocation throws a TypeError in both branches. -/
def divideAndRemainder (a b : BigIntegerV) :
    Except JsError (BigIntegerV × BigIntegerV) :=
  if b.mag.length < BURNIKEL_ZIEGLER_THRESHOLD ∨
      (a.mag.length : Int) - (b.mag.length : Int) < BURNIKEL_ZIEGLER_OFFSET then
    .error .typeError
  else
    .error .typeError

-- Supporting lemmas.


theorem dropWhile_eq_self_of_head (mag : List Int) (hh : mag.head? ≠ some 0) :
    mag.dropWhile (fun l => l == 0) = mag := by
  match mag with
  | [] => rfl
  | h₀ :: t =>
    have h0 : h₀ ≠ 0 := by simpa using hh
    simp [List.dropWhile_cons, h0]

theorem head_dropWhile_ne_zero (l : List Int) :
    (l.dropWhile (fun x => x == 0)).head? ≠ some 0 := by
  induction l with
  | nil => simp
  | cons h t ih =>
    by_cases h0 : h = 0
    · simpa [List.dropWhile_cons, h0] using ih
    · simp [List.dropWhile_cons, h0]

theorem compareLimbs_cases (x y : List Int) :
    compareLimbs x y = -1 ∨ compareLimbs x y = 0 ∨ compareLimbs x y = 1 := by
  induction x generalizing y with
  | nil => cases y <;> simp [compareLimbs]
  | cons a xt ih =>
    cases y with
    | nil => simp [compareLimbs]
    | cons b yt =>
      simp only [compareLimbs]
      split
      · split <;> simp
      · exact ih yt

theorem compareMagnitudes_cases (x y : List Int) :
    compareMagnitudes x y = -1 ∨ compareMagnitudes x y = 0 ∨ compareMagnitudes x y = 1 := by
  unfold compareMagnitudes
  split
  · exact compareLimbs_cases x y
  · split <;> simp

theorem mk_ok_of (s : Int) (mag : List Int) (hs : s = -1 ∨ s = 1)
    (hne : mag ≠ []) (hh : mag.head? ≠ some 0)
    (hr : ∀ l ∈ mag, MIN_INT ≤ l ∧ l ≤ MAX_INT)
    (hc : mag.length < MAX_MAG_LENGTH ∨
      (mag.length = MAX_MAG_LENGTH ∧ 0 ≤ mag.head?.getD 0)) :
    mkBigInteger s mag = .ok ⟨s, mag⟩ := by
  have hs0 : s ≠ 0 := by rcases hs with h|h <;> simp [h]
  unfold mkBigInteger
  have h1 : ¬(s < -1 ∨ 1 < s) := by rcases hs with h|h <;> simp [h]
  rw [if_neg h1]
  by_cases hlen : mag.length ≤ 1
  · have h2 : ¬((mag.length = 0 ∧ s ≠ 0) ∨ (mag.length = 1 ∧ s = 0)) := by
      push_neg
      exact ⟨fun hl => absurd (List.length_eq_zero.mp hl) hne, fun _ => hs0⟩
    rw [if_pos hlen, if_neg h2]
  · rw [if_neg hlen, if_pos hr]
    have hstrip : stripLeadingZeroInts mag = mag := dropWhile_eq_self_of_head mag hh
    rw [hstrip]
    have hlz : ¬(mag.length = 0) := fun hl => hne (List.length_eq_zero.mp hl)
    rw [if_neg hlz, if_neg hs0]
    by_cases hm : MAX_MAG_LENGTH ≤ mag.length
    · rw [if_pos hm]
      have h3 : ¬(MAX_MAG_LENGTH < mag.length ∨
          (mag.length = MAX_MAG_LENGTH ∧ mag.head?.getD 0 < 0)) := by
        rcases hc with h|h
        · omega
        · push_neg
          exact ⟨by omega, fun _ => by omega⟩
      rw [if_neg h3]
    · rw [if_neg hm]

theorem negate_ok_of_valid (b : BigIntegerV) (hb : Valid b) (h0 : b.signum ≠ 0) :
    negate b = .ok ⟨-b.signum, b.mag⟩ := by
  obtain ⟨hs, hi1, hi2, hr, hc⟩ := hb
  have hs1 : -b.signum = -1 ∨ -b.signum = 1 := by
    rcases hs with h|h|h
    · exact Or.inr (by simp [h])
    · exact absurd h h0
    · exact Or.inl (by simp [h])
  have hne : b.mag ≠ [] := fun h => h0 (hi1.mpr h)
  unfold negate
  rw [if_neg h0]
  exact mk_ok_of (-b.signum) b.mag hs1 hne hi2 hr hc


-- Claim theorems.

/-- C1: the division contract cannot hold on the code: the dispatch invokes
the nonexistent public `this.divideAndRemainderKnuth` (the defined method is
the private stub `#divideAndRemainderKnuth`), so `divideAndRemainder` throws
a TypeError on every pair of operands - shown at `a = 7`, `b = 3` and in
general - and never returns a quotient/remainder pair; the stub itself, were
it reachable, would only raise a ReferenceError on its unbound `ZERO`. -/
theorem claim1_divideAndRemainder_bug :
    divideAndRemainder ⟨1, [7]⟩ ⟨1, [3]⟩ = .error .typeError ∧
      (∀ a b : BigIntegerV, divideAndRemainder a b = .error .typeError) ∧
      divideAndRemainderKnuth ⟨1, [7]⟩ ⟨1, [3]⟩ = .error .referenceError := by
  refine ⟨rfl, ?_, rfl⟩
  intro a b
  unfold divideAndRemainder
  split <;> rfl

/-- C2: a zero divisor does not fail with a DivideByZeroError: the dispatch
routes the empty-magnitude divisor into the `this.divideAndRemainderKnuth`
invocation, which throws a TypeError because no such public method exists -
a different kind of failure than the one the claim requires. -/
theorem claim2_divide_by_zero_bug :
    divideAndRemainder ⟨1, [1]⟩ ⟨0, []⟩ = .error .typeError ∧
      (∀ a : BigIntegerV, divideAndRemainder a ⟨0, []⟩ = .error .typeError) ∧
      divideAndRemainder ⟨1, [1]⟩ ⟨0, []⟩ ≠ .error .divideByZero := by
  refine ⟨rfl, fun a => rfl, fun h => ?_⟩
  have h2 : JsError.typeError = JsError.divideByZero := by injection h
  exact JsError.noConfusion h2

/-- C5: for all valid BigIntegers `a` and `b`, `a.subtract(b)` is exactly
equivalent to `a.add(b.negate())`: the two computations return structurally
equal results (same sign, same magnitude limbs), and when one fails the
other fails with the same error, even though subtract is implemented
directly. -/
theorem claim5_subtract_eq_add_negate (a b : BigIntegerV)
    (ha : Valid a) (hb : Valid b) :
    subtractBigInteger a b = (negate b).bind (addBigInteger a) := by
  by_cases hb0 : b.signum = 0
  · simp [subtractBigInteger, addBigInteger, negate, hb0, Except.bind]
  · have hnb := negate_ok_of_valid b hb hb0
    rw [hnb]
    show subtractBigInteger a b = addBigInteger a ⟨-b.signum, b.mag⟩
    have hbs : b.signum = -1 ∨ b.signum = 1 := by
      rcases hb.1 with h|h|h
      · exact Or.inl h
      · exact absurd h hb0
      · exact Or.inr h
    by_cases ha0 : a.signum = 0
    · have hnbs : ¬(-b.signum = 0) := by rcases hbs with h|h <;> simp [h]
      simp [subtractBigInteger, addBigInteger, ha0, hb0, hnbs, hnb]
    · have has : a.signum = -1 ∨ a.signum = 1 := by
        rcases ha.1 with h|h|h
        · exact Or.inl h
        · exact absurd h ha0
        · exact Or.inr h
      by_cases hsame : a.signum = b.signum
      · have h2 : b.signum = a.signum := hsame.symm
        rcases has with h|h <;>
          rcases compareMagnitudes_cases a.mag b.mag with hc|hc|hc <;>
            simp [subtractBigInteger, addBigInteger, h2, h, hc]
      · have hvs : a.signum = -b.signum := by
          rcases has with h|h <;> rcases hbs with h2|h2 <;>
            simp [h, h2] at hsame ⊢
        have hneq : ¬(-b.signum = b.signum) := by
          rcases hbs with h2|h2 <;> simp [h2]
        simp [subtractBigInteger, addBigInteger, hb0, ha0, hsame, hvs, hneq]

/-- Witness for C5 at `a = 5`, `b = -3`. -/
theorem claim5_witness :
    subtractBigInteger ⟨1, [5]⟩ ⟨-1, [3]⟩ =
      (negate ⟨-1, [3]⟩).bind (addBigInteger ⟨1, [5]⟩) :=
  claim5_subtract_eq_add_negate ⟨1, [5]⟩ ⟨-1, [3]⟩ (by decide) (by decide)

/-- C6 counterexample: the public `(sign, magnitude)` constructor accepts
sign 1 with the single-limb magnitude `[0]` through its length-at-most-one
fast path without stripping, producing an instance whose magnitude has a
leading zero limb - violating invariant I2 (and giving a second,
structurally different representation of zero). -/
theorem claim6_counterexample :
    mkBigInteger 1 [0] = .ok ⟨1, [0]⟩ ∧ ¬ I2 ⟨1, [0]⟩ := by
  constructor
  · rfl
  · decide

/-- C6 amended: every BigInteger the `(sign, magnitude)` constructor accepts
satisfies I1, and satisfies I2 as well except when the constructor was called
with nonzero sign and a single-limb zero magnitude, in which case the
resulting magnitude is exactly `[0]`. -/
theorem claim6_constructor_invariants (s : Int) (m : List Int) (b : BigIntegerV)
    (h : mkBigInteger s m = .ok b) : I1 b ∧ (I2 b ∨ b.mag = [0]) := by
  unfold mkBigInteger at h
  split at h
  case isTrue => exact absurd h (by simp)
  case isFalse =>
    split at h
    case isTrue hlen =>
      split at h
      case isTrue => exact absurd h (by simp)
      case isFalse hcond =>
        push_neg at hcond
        obtain rfl : (⟨s, m⟩ : BigIntegerV) = b := by injection h
        match m, hcond, hlen with
        | [], hcond, _ =>
          have hs0 : s = 0 := hcond.1 rfl
          exact ⟨by simp [I1, hs0], Or.inl (by simp [I2])⟩
        | [x], hcond, _ =>
          have hs0 : s ≠ 0 := hcond.2 rfl
          refine ⟨by simp [I1, hs0], ?_⟩
          by_cases hx : x = 0
          · exact Or.inr (by simp [hx])
          · exact Or.inl (by simp [I2, hx])
        | x :: y :: t, _, hlen => exact absurd hlen (by simp)
    case isFalse hlen =>
      split at h
      case isFalse => exact absurd h (by simp)
      case isTrue hrange =>
        split at h
        case isTrue hz =>
          obtain rfl : (⟨0, stripLeadingZeroInts m⟩ : BigIntegerV) = b := by injection h
          have hmag : stripLeadingZeroInts m = [] := List.length_eq_zero.mp hz
          exact ⟨by simp [I1, hmag], Or.inl (by simp [I2, hmag])⟩
        case isFalse hz =>
          split at h
          case isTrue => exact absurd h (by simp)
          case isFalse hs0 =>
            have hne : stripLeadingZeroInts m ≠ [] := fun he => hz (by simp [he])
            split at h
            case isTrue hmax =>
              split at h
              case isTrue => exact absurd h (by simp)
              case isFalse hover =>
                obtain rfl : (⟨s, stripLeadingZeroInts m⟩ : BigIntegerV) = b := by
                  injection h
                refine ⟨?_, Or.inl (head_dropWhile_ne_zero m)⟩
                exact ⟨fun hsz => absurd hsz hs0, fun hm => absurd hm hne⟩
            case isFalse hmax =>
              obtain rfl : (⟨s, stripLeadingZeroInts m⟩ : BigIntegerV) = b := by
                injection h
              refine ⟨?_, Or.inl (head_dropWhile_ne_zero m)⟩
              exact ⟨fun hsz => absurd hsz hs0, fun hm => absurd hm hne⟩

/-- Witness for the amended C6 at sign 1, magnitude `[2]`. -/
theorem claim6_witness :
    I1 ⟨1, [2]⟩ ∧ (I2 ⟨1, [2]⟩ ∨ (⟨1, [2]⟩ : BigIntegerV).mag = [0]) :=
  claim6_constructor_invariants 1 [2] ⟨1, [2]⟩ rfl

/-- C3: `fromString` can never return a BigInteger, so no round-trip with
`toString` exists: on the valid numeral `"1"` in radix 10 the parse completes
and then fails with a ReferenceError at line 541, where the stripped
magnitude is assigned to the undeclared identifier `mag` (and the function
has no return statement after it). -/
theorem claim3_fromString_roundtrip_bug :
    fromString "1" 10 = .error .referenceError ∧
      fromString "123" 10 = .error .referenceError := ⟨rfl, rfl⟩

/-- C4: `a.add(a.negate())` does not return ZERO: for `a = 1` the
opposite-sign equal-magnitude branch of `#addBigInteger` executes
`return ZERO;`, a read of the unbound identifier `ZERO` (the module constant
is `_ZERO`), so the call fails with a ReferenceError instead. -/
theorem claim4_add_negate_bug :
    (negate ⟨1, [1]⟩).bind (addBigInteger ⟨1, [1]⟩) = .error .referenceError := rfl

/-- C7: `bitLength` returns 0 for zero but fails with a ReferenceError on
every nonzero value (line 701 reads the undeclared identifier `signum`), so
`valueOf(2^1 - 1).bitLength() = 1` cannot hold; moreover the helper
`bitLengthForInt` returns the leading-zero count `32 - digits` (here 31 for
input 1) instead of the bit length its own doc comment promises. -/
theorem claim7_bitLength_bug :
    bitLength ⟨0, []⟩ = .ok 0 ∧
      bitLength ⟨1, [1]⟩ = .error .referenceError ∧
      bitLengthForInt 1 = 31 := ⟨rfl, rfl, rfl⟩

/-- C8: `valueOf` never returns a cached instance: every branch reads an
undeclared identifier (`ZERO` for n = 0; `val`, though the parameter is `n`,
in the cache lookups), so `valueOf(1)`, `valueOf(0)` and `valueOf(-3)` all
fail with a ReferenceError. -/
theorem claim8_valueOf_bug :
    valueOf 1 = .error .referenceError ∧
      valueOf 0 = .error .referenceError ∧
      valueOf (-3) = .error .referenceError := ⟨rfl, rfl, rfl⟩

/-- C9: the validation errors of `fromString` behave as claimed - RangeError
for a radix outside [2,36], format errors for the empty string, an embedded
or duplicate sign, and a lone sign - but the all-zero-digits input does not
yield the zero value: line 509 reads the unbound identifier `ZERO` and the
call fails with a ReferenceError. -/
theorem claim9_fromString_error_handling :
    fromString "10" 37 = .error .rangeError ∧
      fromString "10" 1 = .error .rangeError ∧
      fromString "" 10 = .error .formatError ∧
      fromString "1-1" 10 = .error .formatError ∧
      fromString "--1" 10 = .error .formatError ∧
      fromString "+" 10 = .error .formatError ∧
      fromString "-" 10 = .error .formatError ∧
      fromString "-0" 10 = .error .referenceError ∧
      fromString "00" 10 = .error .referenceError :=
  ⟨rfl, rfl, rfl, rfl, rfl, rfl, rfl, rfl, rfl⟩

/-- C10: `toString` does not silently fall back to radix 10 and does not
return "0" for a zero value: line 733 reads the undeclared identifier
`signum` before the radix clamp can run, so every call - zero value and
out-of-range radix included - fails with a ReferenceError. -/
theorem claim10_toString_bug :
    toStringRadix ⟨0, []⟩ 50 = .error .referenceError ∧
      toStringRadix ⟨0, []⟩ 10 = .error .referenceError ∧
      toStringRadix ⟨1, [1]⟩ 10 = .error .referenceError := ⟨rfl, rfl, rfl⟩
